import Mathlib

/-!
Verification development for the TruthVerify trust-score aggregation core.

The embedding below follows the TypeScript source:
* data shapes from src/src/common/types.ts (interfaces VerificationResult,
  VerificationFactor, CredentialVerificationResult, MediaAnalysisResult,
  TextAnalysisResult, CrossValidationResult, AiContentAnalysisResult);
* the TrustEngine class (constructor, updateWeights, calculateScore and the
  per-factor helpers) from the background trust-engine module;
* calculateTemporalScore and calculateTrustScore from src/src/common/utils.ts;
* the late AI-content merge path analyzeAiContent / recalculateTrustScore
  from the content-script part of src/src/common/types.ts (lines 470-536).

Modelling conventions.  JavaScript numbers are embedded as real numbers;
Date values are embedded as their epoch-millisecond real value and the
ambient clock Date.now() becomes an explicit parameter named now.
String fields that only feed human-readable presentation text built from
numbers (the details strings and icons) are omitted: no claim concerns
them and exact number-to-string formatting has no logical content.  All
other fields keep the source names.  Math.min/Math.max/Math.round/Math.exp
become min, max, the floor-of-x-plus-half function jsRound, and Real.exp.
-/

namespace TruthVerify

noncomputable section

/-- Embeds the status union of CredentialVerificationResult:
valid | invalid | revoked | expired | unknown. -/
inductive CredStatus where
  | valid
  | invalid
  | revoked
  | expired
  | unknown
deriving DecidableEq, Repr

/-- Interface CredentialVerificationResult (types.ts).  The issuanceDate is
the epoch-millisecond value of the optional Date field. -/
structure CredentialVerificationResult where
  status : CredStatus
  issuer : Option String := none
  issuanceDate : Option ℝ := none
  revocationStatus : Option Bool := none

/-- Interface MediaAnalysisResult (types.ts); manipulationType and the
region/details payloads are presentation-only and unused by the engine
except inside formatted detail strings, so they are omitted. -/
structure MediaAnalysisResult where
  manipulationProbability : ℝ
  confidence : ℝ := 1

/-- Interface TextAnalysisResult (types.ts); only the probability field is
read by the trust engine. -/
structure TextAnalysisResult where
  misinformationProbability : ℝ

/-- Interface CrossValidationResult (types.ts). -/
structure CrossValidationResult where
  sourcesChecked : ℝ
  sourcesCorroborating : ℝ

/-- Interface AiContentAnalysisResult (types.ts); fields not read by the
merge/recalculation path are omitted. -/
structure AiContentAnalysisResult where
  isAiGenerated : Bool := false
  score : ℝ
  detectionConfidence : ℝ := 1

/-- Interface VerificationFactor (types.ts); the details and icon fields
are presentation-only strings and are omitted. -/
structure VerificationFactor where
  name : String
  description : String
  score : ℝ
  weight : ℝ

/-- Interface VerificationResult (types.ts); cheqdVerification is never
touched by the aggregation core and is omitted.  verificationTimestamp is
the epoch-millisecond value of the Date stored by calculateScore. -/
structure VerificationResult where
  trustScore : ℝ
  sourceVerified : Bool
  technicalAnalysisScore : ℝ
  communityRating : Option ℝ := none
  credentialIssuanceDate : Option ℝ := none
  crossValidation : Option CrossValidationResult := none
  factors : List VerificationFactor
  contentUrl : String := ""
  verificationTimestamp : ℝ := 0
  aiContentAnalysis : Option AiContentAnalysisResult := none

/-- calculateTemporalScore from src/src/common/utils.ts:
returns 0 without an issuance date, otherwise exp(-ageDays/30) where
ageDays = (Date.now() - issuanceDate.getTime()) / (1000 * 86400). -/
def calculateTemporalScore (now : ℝ) (issuanceDate : Option ℝ) : ℝ :=
  match issuanceDate with
  | none => 0
  | some t => Real.exp (-((now - t) / (1000 * 86400) / 30))

/-- Math.round as used by recalculateTrustScore: rounds to the nearest
integer, halves toward positive infinity. -/
def jsRound (x : ℝ) : ℝ := ((⌊x + 1/2⌋ : ℤ) : ℝ)

namespace TrustEngine

/-- The weight record read by the TrustEngine scoring helpers.  The source
stores the five weights in a plain object; the scoring code reads exactly
these five keys, so the active configuration is embedded as a total record
of the five values. -/
structure Weights where
  sourceVerification : ℝ
  technicalAnalysis : ℝ
  communityRating : ℝ
  temporalFreshness : ℝ
  crossValidation : ℝ

/-- The defaultWeights literal of the TrustEngine class. -/
def defaultWeights : Weights :=
  { sourceVerification := 0.35
    technicalAnalysis := 0.25
    communityRating := 0.15
    temporalFreshness := 0.15
    crossValidation := 0.10 }

/-- A JavaScript weight object in which any of the five keys may be
absent, as in a partially-specified configuration argument.  This is the
shape relevant to the constructor and to updateWeights, where objects are
replaced or spread-merged key-wise. -/
structure WeightConfig where
  sourceVerification : Option ℝ := none
  technicalAnalysis : Option ℝ := none
  communityRating : Option ℝ := none
  temporalFreshness : Option ℝ := none
  crossValidation : Option ℝ := none

/-- The defaultWeights object viewed as a (fully populated) weight object. -/
def defaultWeightConfig : WeightConfig :=
  { sourceVerification := some 0.35
    technicalAnalysis := some 0.25
    communityRating := some 0.15
    temporalFreshness := some 0.15
    crossValidation := some 0.10 }

/-- The TrustEngine constructor: this.weights = weights || this.defaultWeights.
A supplied object (always truthy in JavaScript) is taken wholesale; the
defaults are used only when the argument is absent. -/
def initialWeights (weights : Option WeightConfig) : WeightConfig :=
  weights.getD defaultWeightConfig

/-- TrustEngine.updateWeights: this.weights = { ...this.weights, ...weights }.
Object spread merges key-wise: a key present in the update wins, a key
absent in the update keeps the current value.  The source performs no
validation and has no failure path, so the embedding is a total function. -/
def updateWeights (current update : WeightConfig) : WeightConfig :=
  { sourceVerification := update.sourceVerification.or current.sourceVerification
    technicalAnalysis := update.technicalAnalysis.or current.technicalAnalysis
    communityRating := update.communityRating.or current.communityRating
    temporalFreshness := update.temporalFreshness.or current.temporalFreshness
    crossValidation := update.crossValidation.or current.crossValidation }

/-- TrustEngine.calculateSourceVerificationFactor: the switch on
credentialResult.status producing the fixed score table. -/
def calculateSourceVerificationFactor (w : Weights)
    (credentialResult : CredentialVerificationResult) : VerificationFactor :=
  let score : ℝ :=
    match credentialResult.status with
    | CredStatus.valid => 100
    | CredStatus.expired => 50
    | CredStatus.revoked => 10
    | CredStatus.invalid => 0
    | CredStatus.unknown => 30
  { name := "Source Verification"
    description := "Verification of content source using decentralized credentials"
    score := score
    weight := w.sourceVerification }

/-- TrustEngine.calculateTechnicalAnalysisScore: both defaults start at 100,
each present analysis overwrites its side with the inverted probability,
then the if/else-if chain blends 0.6/0.4 or passes the single side through,
returning 50 when no analysis is available. -/
def calculateTechnicalAnalysisScore (mediaAnalysis : Option MediaAnalysisResult)
    (textAnalysis : Option TextAnalysisResult) : ℝ :=
  let mediaScore : ℝ :=
    match mediaAnalysis with
    | some m => 100 - m.manipulationProbability * 100
    | none => 100
  let textScore : ℝ :=
    match textAnalysis with
    | some t => 100 - t.misinformationProbability * 100
    | none => 100
  match mediaAnalysis, textAnalysis with
  | some _, some _ => mediaScore * 0.6 + textScore * 0.4
  | some _, none => mediaScore
  | none, some _ => textScore
  | none, none => 50

/-- TrustEngine.calculateTechnicalAnalysisFactor. -/
def calculateTechnicalAnalysisFactor (w : Weights)
    (mediaAnalysis : Option MediaAnalysisResult)
    (textAnalysis : Option TextAnalysisResult) : VerificationFactor :=
  { name := "Technical Analysis"
    description := "AI-powered analysis of media and text content"
    score := calculateTechnicalAnalysisScore mediaAnalysis textAnalysis
    weight := w.technicalAnalysis }

/-- TrustEngine.calculateTemporalFreshnessFactor: the temporal score from
utils scaled by 100. -/
def calculateTemporalFreshnessFactor (w : Weights) (now : ℝ)
    (issuanceDate : Option ℝ) : VerificationFactor :=
  { name := "Temporal Freshness"
    description := "Recency of the credential issuance"
    score := calculateTemporalScore now issuanceDate * 100
    weight := w.temporalFreshness }

/-- TrustEngine.calculateCrossValidationFactor: the score is initialised to
0 and set to the corroboration ratio only when sourcesChecked > 0. -/
def calculateCrossValidationFactor (w : Weights)
    (crossValidation : CrossValidationResult) : VerificationFactor :=
  { name := "Cross Validation"
    description := "Verification against other trusted sources"
    score :=
      if crossValidation.sourcesChecked > 0 then
        crossValidation.sourcesCorroborating / crossValidation.sourcesChecked * 100
      else 0
    weight := w.crossValidation }

/-- TrustEngine.calculateCommunityRatingFactor. -/
def calculateCommunityRatingFactor (w : Weights) (rating : ℝ) : VerificationFactor :=
  { name := "Community Rating"
    description := "Rating provided by the community"
    score := rating
    weight := w.communityRating }

/-- TrustEngine.calculateScore: pushes the factors in source order (source
verification always, technical analysis when media or text analysis is
present, temporal freshness always, cross validation and community rating
when present), accumulates score*weight and weight over the factor list,
clamps the ratio into 0..100 when the weight total is positive and returns
0 otherwise, and fills the remaining VerificationResult fields. -/
def calculateScore (w : Weights) (now : ℝ)
    (credentialResult : CredentialVerificationResult)
    (mediaAnalysis : Option MediaAnalysisResult)
    (textAnalysis : Option TextAnalysisResult)
    (crossValidation : Option CrossValidationResult)
    (communityRating : Option ℝ)
    (contentUrl : String) : VerificationResult :=
  let factors : List VerificationFactor :=
    [calculateSourceVerificationFactor w credentialResult]
      ++ (if mediaAnalysis.isSome || textAnalysis.isSome then
            [calculateTechnicalAnalysisFactor w mediaAnalysis textAnalysis]
          else [])
      ++ [calculateTemporalFreshnessFactor w now credentialResult.issuanceDate]
      ++ (match crossValidation with
          | some cv => [calculateCrossValidationFactor w cv]
          | none => [])
      ++ (match communityRating with
          | some rating => [calculateCommunityRatingFactor w rating]
          | none => [])
  let totalScore : ℝ := factors.foldl (fun acc f => acc + f.score * f.weight) 0
  let totalWeight : ℝ := factors.foldl (fun acc f => acc + f.weight) 0
  let trustScore : ℝ :=
    if totalWeight > 0 then min 100 (max 0 (totalScore / totalWeight)) else 0
  { trustScore := trustScore
    sourceVerified := credentialResult.status == CredStatus.valid
    technicalAnalysisScore := calculateTechnicalAnalysisScore mediaAnalysis textAnalysis
    communityRating := communityRating
    credentialIssuanceDate := credentialResult.issuanceDate
    crossValidation := crossValidation
    factors := factors
    contentUrl := contentUrl
    verificationTimestamp := now }

end TrustEngine

/-- calculateTrustScore from src/src/common/utils.ts: 0 on the empty list,
otherwise the same accumulate/clamp computation as calculateScore. -/
def calculateTrustScore (factors : List VerificationFactor) : ℝ :=
  if factors.isEmpty then 0
  else
    let totalScore : ℝ := factors.foldl (fun acc f => acc + f.score * f.weight) 0
    let totalWeight : ℝ := factors.foldl (fun acc f => acc + f.weight) 0
    if totalWeight > 0 then min 100 (max 0 (totalScore / totalWeight)) else 0

/-- The per-factor score used inside recalculateTrustScore's loop: the
ternary that inverts the score of the factor named AI Content Analysis and
passes every other factor's score through. -/
def aiAdjustedScore (f : VerificationFactor) : ℝ :=
  if f.name == "AI Content Analysis" then 100 - f.score else f.score

/-- recalculateTrustScore (types.ts lines 514-536): accumulates the
AI-adjusted score*weight and the weight over the stored factors, and
overwrites trustScore with Math.round(totalScore/totalWeight) only when
the weight total is positive; otherwise the result is left untouched. -/
def recalculateTrustScore (result : VerificationResult) : VerificationResult :=
  let totalScore : ℝ := result.factors.foldl (fun acc f => acc + aiAdjustedScore f * f.weight) 0
  let totalWeight : ℝ := result.factors.foldl (fun acc f => acc + f.weight) 0
  if totalWeight > 0 then
    { result with trustScore := jsRound (totalScore / totalWeight) }
  else result

/-- The factor object pushed by analyzeAiContent when no factor named
AI Content Analysis exists yet. -/
def newAiFactor (ai : AiContentAnalysisResult) : VerificationFactor :=
  { name := "AI Content Analysis"
    description := "Detection of AI-generated content"
    score := ai.score
    weight := 0.25 }

/-- The factor-list mutation of analyzeAiContent (types.ts lines 470-494):
findIndex on the name AI Content Analysis; when found, the entry is
overwritten in place by the spread of the old entry with the new score,
description and the fixed weight 0.25; otherwise the new factor is pushed.
The inner none branch is unreachable because findIdx? only returns indices
inside the list. -/
def mergeAiFactor (factors : List VerificationFactor)
    (ai : AiContentAnalysisResult) : List VerificationFactor :=
  match factors.findIdx? (fun f => f.name == "AI Content Analysis") with
  | some i =>
      match factors[i]? with
      | some old =>
          factors.set i
            { old with
              score := ai.score
              description := "Detection of AI-generated content"
              weight := 0.25 }
      | none => factors
  | none => factors ++ [newAiFactor ai]

/-- The in-memory update performed by analyzeAiContent once the AI result
arrives for a URL with a published VerificationResult: merge the factor,
store the full AI analysis payload, then recalculate the trust score. -/
def analyzeAiContent (result : VerificationResult)
    (aiAnalysisResult : AiContentAnalysisResult) : VerificationResult :=
  recalculateTrustScore
    { result with
      factors := mergeAiFactor result.factors aiAnalysisResult
      aiContentAnalysis := some aiAnalysisResult }

/-!
General lemmas about the embedded operations.  These convert the source's
loop accumulators into list sums and characterise the merge/recalculation
path; the claim theorems below build on them.
-/

theorem foldl_score_weight_eq_sum (l : List VerificationFactor) (a : ℝ) :
    l.foldl (fun acc f => acc + f.score * f.weight) a
      = a + (l.map fun f => f.score * f.weight).sum := by
  induction l generalizing a with
  | nil => simp
  | cons f t ih => simp only [List.foldl_cons, List.map_cons, List.sum_cons, ih]; ring

theorem foldl_weight_eq_sum (l : List VerificationFactor) (a : ℝ) :
    l.foldl (fun acc f => acc + f.weight) a = a + (l.map fun f => f.weight).sum := by
  induction l generalizing a with
  | nil => simp
  | cons f t ih => simp only [List.foldl_cons, List.map_cons, List.sum_cons, ih]; ring

theorem foldl_adjusted_eq_sum (l : List VerificationFactor) (a : ℝ) :
    l.foldl (fun acc f => acc + aiAdjustedScore f * f.weight) a
      = a + (l.map fun f => aiAdjustedScore f * f.weight).sum := by
  induction l generalizing a with
  | nil => simp
  | cons f t ih => simp only [List.foldl_cons, List.map_cons, List.sum_cons, ih]; ring

theorem aiAdjustedScore_eq_ite (f : VerificationFactor) :
    aiAdjustedScore f
      = if f.name = "AI Content Analysis" then 100 - f.score else f.score := by
  simp [aiAdjustedScore]

theorem calculateScore_trustScore_eq (w : TrustEngine.Weights) (now : ℝ)
    (credentialResult : CredentialVerificationResult)
    (mediaAnalysis : Option MediaAnalysisResult)
    (textAnalysis : Option TextAnalysisResult)
    (crossValidation : Option CrossValidationResult)
    (communityRating : Option ℝ) (contentUrl : String) :
    (TrustEngine.calculateScore w now credentialResult mediaAnalysis textAnalysis
        crossValidation communityRating contentUrl).trustScore
      = (let fs := (TrustEngine.calculateScore w now credentialResult mediaAnalysis
            textAnalysis crossValidation communityRating contentUrl).factors
         let totalWeight := (fs.map fun f => f.weight).sum
         if totalWeight > 0 then
           min 100 (max 0 ((fs.map fun f => f.score * f.weight).sum / totalWeight))
         else 0) := by
  simp only [TrustEngine.calculateScore, foldl_score_weight_eq_sum, foldl_weight_eq_sum,
    zero_add]

theorem calculateTrustScore_eq (factors : List VerificationFactor) :
    calculateTrustScore factors
      = (let totalWeight := (factors.map fun f => f.weight).sum
         if totalWeight > 0 then
           min 100 (max 0 ((factors.map fun f => f.score * f.weight).sum / totalWeight))
         else 0) := by
  rcases factors with _ | ⟨f, t⟩
  · simp [calculateTrustScore]
  · simp only [calculateTrustScore, List.isEmpty_cons, Bool.false_eq_true, if_false,
      foldl_score_weight_eq_sum, foldl_weight_eq_sum, zero_add]

theorem recalculateTrustScore_factors (result : VerificationResult) :
    (recalculateTrustScore result).factors = result.factors := by
  simp only [recalculateTrustScore]
  split <;> rfl

theorem recalculateTrustScore_trustScore (result : VerificationResult) :
    (recalculateTrustScore result).trustScore
      = (let totalWeight := (result.factors.map fun f => f.weight).sum
         if totalWeight > 0 then
           jsRound ((result.factors.map fun f => aiAdjustedScore f * f.weight).sum / totalWeight)
         else result.trustScore) := by
  simp only [recalculateTrustScore, foldl_adjusted_eq_sum, foldl_weight_eq_sum, zero_add]
  split <;> rfl

theorem analyzeAiContent_factors (result : VerificationResult)
    (ai : AiContentAnalysisResult) :
    (analyzeAiContent result ai).factors = mergeAiFactor result.factors ai := by
  unfold analyzeAiContent
  rw [recalculateTrustScore_factors]

theorem mergeAiFactor_of_not_found (factors : List VerificationFactor)
    (ai : AiContentAnalysisResult)
    (h : ∀ f ∈ factors, f.name ≠ "AI Content Analysis") :
    mergeAiFactor factors ai = factors ++ [newAiFactor ai] := by
  have hfind : factors.findIdx? (fun f => f.name == "AI Content Analysis") = none := by
    rw [List.findIdx?_eq_none_iff]
    intro f hf
    simpa using h f hf
  unfold mergeAiFactor
  rw [hfind]

theorem mergeAiFactor_of_found (factors : List VerificationFactor)
    (ai : AiContentAnalysisResult) (i : ℕ)
    (h : factors.findIdx? (fun f => f.name == "AI Content Analysis") = some i) :
    ∃ hi : i < factors.length,
      mergeAiFactor factors ai
        = factors.set i
            { factors.get ⟨i, hi⟩ with
              score := ai.score
              description := "Detection of AI-generated content"
              weight := 0.25 } := by
  obtain ⟨hi, hp, hmin⟩ := List.findIdx?_eq_some_iff_getElem.mp h
  refine ⟨hi, ?_⟩
  unfold mergeAiFactor
  rw [h]
  dsimp only
  rw [List.getElem?_eq_getElem hi]
  rfl

theorem mergeAiFactor_contains_ai (factors : List VerificationFactor)
    (ai : AiContentAnalysisResult) :
    ∃ f ∈ mergeAiFactor factors ai, f.name = "AI Content Analysis" := by
  rcases hfind : factors.findIdx? (fun f => f.name == "AI Content Analysis") with _ | i
  · unfold mergeAiFactor
    rw [hfind]
    exact ⟨newAiFactor ai, by simp [newAiFactor]⟩
  · obtain ⟨hi, hm⟩ := mergeAiFactor_of_found factors ai i hfind
    rw [hm]
    obtain ⟨hi2, hp, hmin⟩ := List.findIdx?_eq_some_iff_getElem.mp hfind
    have hget :
        (factors.set i
            { factors.get ⟨i, hi⟩ with
              score := ai.score
              description := "Detection of AI-generated content"
              weight := 0.25 })[i]? =
          some
            { factors.get ⟨i, hi⟩ with
              score := ai.score
              description := "Detection of AI-generated content"
              weight := 0.25 } :=
      List.getElem?_set_self hi
    refine ⟨_, List.getElem?_mem hget, ?_⟩
    simpa using hp

theorem mergeAiFactor_length_of_contains (factors : List VerificationFactor)
    (ai : AiContentAnalysisResult)
    (hex : ∃ f ∈ factors, f.name = "AI Content Analysis") :
    (mergeAiFactor factors ai).length = factors.length := by
  have hsome : (factors.findIdx? (fun f => f.name == "AI Content Analysis")).isSome := by
    obtain ⟨f, hf, hname⟩ := hex
    rw [List.findIdx?_isSome, List.any_eq_true]
    exact ⟨f, hf, by simpa using hname⟩
  obtain ⟨i, hi⟩ := Option.isSome_iff_exists.mp hsome
  obtain ⟨hlt, hm⟩ := mergeAiFactor_of_found factors ai i hi
  rw [hm]
  simp

/-!
Concrete scenario used by the counterexample and the witnesses: an initial
compute with a valid credential carrying no issuance date and no optional
signals, followed by the late arrival of an AI-content result with raw
score 40.
-/

def exCredential : CredentialVerificationResult := { status := CredStatus.valid }

def exInitialResult : VerificationResult :=
  TrustEngine.calculateScore TrustEngine.defaultWeights 0 exCredential
    none none none none ""

def exAi : AiContentAnalysisResult := { score := 40 }

def exMergedResult : VerificationResult := analyzeAiContent exInitialResult exAi

def exSourceFactor : VerificationFactor :=
  { name := "Source Verification"
    description := "Verification of content source using decentralized credentials"
    score := 100
    weight := 0.35 }

def exTemporalFactor : VerificationFactor :=
  { name := "Temporal Freshness"
    description := "Recency of the credential issuance"
    score := 0
    weight := 0.15 }

def exAiFactor : VerificationFactor :=
  { name := "AI Content Analysis"
    description := "Detection of AI-generated content"
    score := 40
    weight := 0.25 }

theorem exInitialResult_factors :
    exInitialResult.factors = [exSourceFactor, exTemporalFactor] := by
  simp [exInitialResult, TrustEngine.calculateScore, exCredential,
    TrustEngine.calculateSourceVerificationFactor,
    TrustEngine.calculateTemporalFreshnessFactor, calculateTemporalScore,
    TrustEngine.defaultWeights, exSourceFactor, exTemporalFactor]

theorem exInitialResult_no_ai :
    ∀ f ∈ exInitialResult.factors, f.name ≠ "AI Content Analysis" := by
  rw [exInitialResult_factors]
  intro f hf
  simp only [List.mem_cons, List.not_mem_nil, or_false] at hf
  rcases hf with rfl | rfl
  · simp [exSourceFactor]
  · simp [exTemporalFactor]

theorem exMergedResult_factors :
    exMergedResult.factors = [exSourceFactor, exTemporalFactor, exAiFactor] := by
  rw [exMergedResult, analyzeAiContent_factors,
    mergeAiFactor_of_not_found _ _ exInitialResult_no_ai, exInitialResult_factors]
  simp [newAiFactor, exAi, exAiFactor]

theorem sum_map_adjusted_eq_of_no_ai (l : List VerificationFactor)
    (h : ∀ f ∈ l, f.name ≠ "AI Content Analysis") :
    (l.map fun f => aiAdjustedScore f * f.weight).sum
      = (l.map fun f => f.score * f.weight).sum := by
  induction l with
  | nil => rfl
  | cons f t ih =>
      have hf : f.name ≠ "AI Content Analysis" := h f (List.mem_cons_self f t)
      have ht : ∀ g ∈ t, g.name ≠ "AI Content Analysis" :=
        fun g hg => h g (List.mem_cons_of_mem f hg)
      have hhead : aiAdjustedScore f = f.score := by simp [aiAdjustedScore, hf]
      simp only [List.map_cons, List.sum_cons, ih ht, hhead]

/-!
The claim theorems.
-/

/-- Claim C1, counterexample: for the concrete scenario (initial compute
with a valid credential and no optional signals, then the late AI result
with raw score 40) the recomputed trust score is 67, while the weighted
average of the stored factor scores clamped to 0..100 is 60 — the merge
path inverts the AI score and rounds, so the claimed invariant fails. -/
theorem trustScore_invariant_counterexample :
    exMergedResult.trustScore = 67 ∧
    min 100 (max 0 ((exMergedResult.factors.map fun f => f.score * f.weight).sum
        / (exMergedResult.factors.map fun f => f.weight).sum)) = 60 ∧
    exMergedResult.trustScore
      ≠ min 100 (max 0 ((exMergedResult.factors.map fun f => f.score * f.weight).sum
          / (exMergedResult.factors.map fun f => f.weight).sum)) := by
  have hmerge : mergeAiFactor exInitialResult.factors exAi
      = [exSourceFactor, exTemporalFactor, exAiFactor] := by
    rw [mergeAiFactor_of_not_found _ _ exInitialResult_no_ai, exInitialResult_factors]
    simp [newAiFactor, exAi, exAiFactor]
  have hW : (([exSourceFactor, exTemporalFactor, exAiFactor].map
      fun f => f.weight).sum : ℝ) = 0.75 := by
    simp [exSourceFactor, exTemporalFactor, exAiFactor]
    norm_num
  have hS : (([exSourceFactor, exTemporalFactor, exAiFactor].map
      fun f => aiAdjustedScore f * f.weight).sum : ℝ) = 50 := by
    simp [exSourceFactor, exTemporalFactor, exAiFactor, aiAdjustedScore]
    norm_num
  have hSraw : (([exSourceFactor, exTemporalFactor, exAiFactor].map
      fun f => f.score * f.weight).sum : ℝ) = 45 := by
    simp [exSourceFactor, exTemporalFactor, exAiFactor]
    norm_num
  have h1 : exMergedResult.trustScore = 67 := by
    rw [exMergedResult]
    unfold analyzeAiContent
    rw [recalculateTrustScore_trustScore]
    dsimp only
    rw [hmerge, hW, hS]
    rw [if_pos (by norm_num : (0.75 : ℝ) > 0)]
    norm_num [jsRound]
  have h2 : min 100 (max 0 ((exMergedResult.factors.map fun f => f.score * f.weight).sum
      / (exMergedResult.factors.map fun f => f.weight).sum)) = 60 := by
    rw [exMergedResult_factors, hSraw, hW]
    norm_num
  refine ⟨h1, h2, ?_⟩
  rw [h1, h2]
  norm_num

/-- Claim C1, amended: after the initial calculateScore (and for the
standalone calculateTrustScore helper) the trust score equals the weighted
average of the stored factor scores clamped to 0..100, and 0 when the
total weight is not positive; but after a later merge-and-recompute the
trust score equals the weighted average in which the factor named
AI Content Analysis contributes 100 minus its stored score, rounded to the
nearest integer (halves up) and not clamped, and the previous trust score
is kept unchanged when the total weight is not positive. -/
theorem trustScore_weighted_average_amended (w : TrustEngine.Weights) (now : ℝ)
    (credentialResult : CredentialVerificationResult)
    (mediaAnalysis : Option MediaAnalysisResult)
    (textAnalysis : Option TextAnalysisResult)
    (crossValidation : Option CrossValidationResult)
    (communityRating : Option ℝ) (contentUrl : String)
    (result : VerificationResult) (ai : AiContentAnalysisResult)
    (factors : List VerificationFactor) :
    ((TrustEngine.calculateScore w now credentialResult mediaAnalysis textAnalysis
        crossValidation communityRating contentUrl).trustScore
      = (let fs := (TrustEngine.calculateScore w now credentialResult mediaAnalysis
            textAnalysis crossValidation communityRating contentUrl).factors
         let totalWeight := (fs.map fun f => f.weight).sum
         if totalWeight > 0 then
           min 100 (max 0 ((fs.map fun f => f.score * f.weight).sum / totalWeight))
         else 0)) ∧
    (calculateTrustScore factors
      = (let totalWeight := (factors.map fun f => f.weight).sum
         if totalWeight > 0 then
           min 100 (max 0 ((factors.map fun f => f.score * f.weight).sum / totalWeight))
         else 0)) ∧
    ((analyzeAiContent result ai).trustScore
      = (let fs := (analyzeAiContent result ai).factors
         let totalWeight := (fs.map fun f => f.weight).sum
         if totalWeight > 0 then
           ((⌊(fs.map fun f =>
                  (if f.name = "AI Content Analysis" then 100 - f.score else f.score)
                    * f.weight).sum / totalWeight + 1/2⌋ : ℤ) : ℝ)
         else result.trustScore)) := by
  refine ⟨calculateScore_trustScore_eq w now credentialResult mediaAnalysis textAnalysis
      crossValidation communityRating contentUrl,
    calculateTrustScore_eq factors, ?_⟩
  unfold analyzeAiContent
  rw [recalculateTrustScore_trustScore, recalculateTrustScore_factors]
  simp only [aiAdjustedScore_eq_ite, jsRound]

/-- Claim C2: merging the late AI-content result with raw score S stores a
factor that keeps score = S (uninverted) with the fixed weight 0.25, while
the recomputed trust score counts (100 - S) * 0.25 for that factor in the
weighted numerator. -/
theorem mergeFactor_ai_raw_score_inverted_contribution
    (result : VerificationResult) (ai : AiContentAnalysisResult)
    (hnone : ∀ f ∈ result.factors, f.name ≠ "AI Content Analysis") :
    ((analyzeAiContent result ai).factors.find?
        (fun f => f.name == "AI Content Analysis") = some (newAiFactor ai)) ∧
    ((newAiFactor ai).score = ai.score) ∧
    ((newAiFactor ai).weight = 0.25) ∧
    ((analyzeAiContent result ai).trustScore
      = (let totalWeight := (result.factors.map fun f => f.weight).sum + 0.25
         if totalWeight > 0 then
           ((⌊((result.factors.map fun f => f.score * f.weight).sum
                + (100 - ai.score) * 0.25) / totalWeight + 1/2⌋ : ℤ) : ℝ)
         else result.trustScore)) := by
  have hm : mergeAiFactor result.factors ai = result.factors ++ [newAiFactor ai] :=
    mergeAiFactor_of_not_found result.factors ai hnone
  refine ⟨?_, rfl, rfl, ?_⟩
  · rw [analyzeAiContent_factors, hm, List.find?_append]
    have hfn : result.factors.find? (fun f => f.name == "AI Content Analysis") = none := by
      rw [List.find?_eq_none]
      intro f hf
      simpa using hnone f hf
    rw [hfn]
    simp [newAiFactor]
  · unfold analyzeAiContent
    rw [recalculateTrustScore_trustScore]
    dsimp only
    rw [hm]
    simp only [List.map_append, List.sum_append, List.map_cons, List.map_nil,
      List.sum_cons, List.sum_nil, add_zero]
    rw [sum_map_adjusted_eq_of_no_ai result.factors hnone]
    have hadj : aiAdjustedScore (newAiFactor ai) = 100 - ai.score := by
      simp [aiAdjustedScore, newAiFactor]
    rw [hadj]
    rfl

/-- Claim C2, witness: the merge theorem applied to the concrete published
result and the AI score 40. -/
theorem mergeFactor_ai_raw_score_inverted_contribution_witness :
    (∀ f ∈ exInitialResult.factors, f.name ≠ "AI Content Analysis") ∧
    (((analyzeAiContent exInitialResult exAi).factors.find?
        (fun f => f.name == "AI Content Analysis") = some (newAiFactor exAi)) ∧
     ((newAiFactor exAi).score = exAi.score) ∧
     ((newAiFactor exAi).weight = 0.25) ∧
     ((analyzeAiContent exInitialResult exAi).trustScore
       = (let totalWeight := (exInitialResult.factors.map fun f => f.weight).sum + 0.25
          if totalWeight > 0 then
            ((⌊((exInitialResult.factors.map fun f => f.score * f.weight).sum
                 + (100 - exAi.score) * 0.25) / totalWeight + 1/2⌋ : ℤ) : ℝ)
          else exInitialResult.trustScore))) :=
  ⟨exInitialResult_no_ai,
    mergeFactor_ai_raw_score_inverted_contribution exInitialResult exAi exInitialResult_no_ai⟩

/-- Claim C3, code bug evidence: updateWeights performs no validation and
raises no error.  Merging an update whose sourceVerification weight is the
negative value -1 succeeds and replaces the active weight, instead of
rejecting the update with an InvalidConfiguration error (no such error
exists anywhere in the source). -/
theorem updateWeights_accepts_negative_weight :
    (TrustEngine.updateWeights TrustEngine.defaultWeightConfig
        { sourceVerification := some (-1) }).sourceVerification = some (-1) ∧
    (TrustEngine.updateWeights TrustEngine.defaultWeightConfig
        { sourceVerification := some (-1) }).sourceVerification
      ≠ TrustEngine.defaultWeightConfig.sourceVerification := by
  refine ⟨rfl, ?_⟩
  simp only [TrustEngine.updateWeights, TrustEngine.defaultWeightConfig, Option.or]
  intro h
  have := Option.some.inj h
  norm_num at this

/-- Claim C4: the merge of the late AI factor replaces an existing factor
of the same name in place (the list length and every other position are
unchanged, and the found position now holds the old factor overwritten
with the merged score, description and the fixed weight 0.25) and appends
otherwise; a second merge always finds the factor, so the length is
unchanged after the second call; and the result is the recalculation
applied to the mutated record. -/
theorem mergeFactor_replace_or_append (result : VerificationResult)
    (a1 a2 : AiContentAnalysisResult) (i j : ℕ) :
    (result.factors.findIdx? (fun f => f.name == "AI Content Analysis") = none →
      (analyzeAiContent result a1).factors = result.factors ++ [newAiFactor a1]) ∧
    (result.factors.findIdx? (fun f => f.name == "AI Content Analysis") = some i →
      ((analyzeAiContent result a1).factors.length = result.factors.length ∧
       (j ≠ i → ((analyzeAiContent result a1).factors)[j]? = result.factors[j]?) ∧
       ((analyzeAiContent result a1).factors)[i]?
         = (result.factors[i]?).map fun old =>
             { old with
               score := a1.score
               description := "Detection of AI-generated content"
               weight := 0.25 })) ∧
    ((analyzeAiContent (analyzeAiContent result a1) a2).factors.length
      = (analyzeAiContent result a1).factors.length) ∧
    (analyzeAiContent result a1
      = recalculateTrustScore
          { result with
            factors := mergeAiFactor result.factors a1
            aiContentAnalysis := some a1 }) := by
  refine ⟨?_, ?_, ?_, rfl⟩
  · intro hnone
    rw [analyzeAiContent_factors]
    unfold mergeAiFactor
    rw [hnone]
  · intro hsome
    obtain ⟨hi, hm⟩ := mergeAiFactor_of_found result.factors a1 i hsome
    rw [analyzeAiContent_factors, hm]
    refine ⟨by simp, fun hj => List.getElem?_set_ne (Ne.symm hj), ?_⟩
    rw [List.getElem?_set_self hi, List.getElem?_eq_getElem hi]
    rfl
  · rw [analyzeAiContent_factors (analyzeAiContent result a1) a2]
    apply mergeAiFactor_length_of_contains
    rw [analyzeAiContent_factors]
    exact mergeAiFactor_contains_ai result.factors a1

/-- Claim C4, witness: the merged concrete result holds the AI factor at
index 2; a further merge keeps the length and position 1 untouched and
overwrites position 2 with the updated factor. -/
theorem mergeFactor_replace_or_append_witness :
    (exMergedResult.factors.findIdx? (fun f => f.name == "AI Content Analysis")
        = some 2) ∧
    ((analyzeAiContent exMergedResult exAi).factors.length
        = exMergedResult.factors.length ∧
     ((1 : ℕ) ≠ 2 →
        ((analyzeAiContent exMergedResult exAi).factors)[1]?
          = exMergedResult.factors[1]?) ∧
     ((analyzeAiContent exMergedResult exAi).factors)[2]?
        = (exMergedResult.factors[2]?).map fun old =>
            { old with
              score := exAi.score
              description := "Detection of AI-generated content"
              weight := 0.25 }) := by
  have hidx : exMergedResult.factors.findIdx? (fun f => f.name == "AI Content Analysis")
      = some 2 := by
    rw [exMergedResult_factors]
    simp [List.findIdx?_cons, exSourceFactor, exTemporalFactor, exAiFactor]
  exact ⟨hidx, (mergeFactor_replace_or_append exMergedResult exAi exAi 2 1).2.1 hidx⟩

/-- Claim C5: the Source Verification factor's score is the exact fixed
function of the credential status (valid 100, invalid 0, revoked 10,
expired 50, unknown 30), and exactly one factor with that name is produced
by every compute call. -/
theorem sourceVerification_factor_mapping (w : TrustEngine.Weights) (now : ℝ)
    (credentialResult : CredentialVerificationResult)
    (mediaAnalysis : Option MediaAnalysisResult)
    (textAnalysis : Option TextAnalysisResult)
    (crossValidation : Option CrossValidationResult)
    (communityRating : Option ℝ) (contentUrl : String) :
    ((TrustEngine.calculateScore w now credentialResult mediaAnalysis textAnalysis
        crossValidation communityRating contentUrl).factors.countP
          (fun f => f.name == "Source Verification") = 1) ∧
    ((TrustEngine.calculateScore w now credentialResult mediaAnalysis textAnalysis
        crossValidation communityRating contentUrl).factors.find?
          (fun f => f.name == "Source Verification")
        = some (TrustEngine.calculateSourceVerificationFactor w credentialResult)) ∧
    ((TrustEngine.calculateSourceVerificationFactor w credentialResult).score
        = match credentialResult.status with
          | CredStatus.valid => 100
          | CredStatus.invalid => 0
          | CredStatus.revoked => 10
          | CredStatus.expired => 50
          | CredStatus.unknown => 30) := by
  refine ⟨?_, ?_, ?_⟩
  · rcases mediaAnalysis with _ | mm <;> rcases textAnalysis with _ | tt <;>
      rcases crossValidation with _ | cvv <;> rcases communityRating with _ | crr <;>
      simp [TrustEngine.calculateScore, TrustEngine.calculateSourceVerificationFactor,
        TrustEngine.calculateTechnicalAnalysisFactor,
        TrustEngine.calculateTemporalFreshnessFactor,
        TrustEngine.calculateCrossValidationFactor,
        TrustEngine.calculateCommunityRatingFactor, List.countP_cons]
  · rcases mediaAnalysis with _ | mm <;> rcases textAnalysis with _ | tt <;>
      rcases crossValidation with _ | cvv <;> rcases communityRating with _ | crr <;>
      simp [TrustEngine.calculateScore, TrustEngine.calculateSourceVerificationFactor,
        TrustEngine.calculateTechnicalAnalysisFactor,
        TrustEngine.calculateTemporalFreshnessFactor,
        TrustEngine.calculateCrossValidationFactor,
        TrustEngine.calculateCommunityRatingFactor, List.find?]
  · rcases credentialResult with ⟨status, issuer, issuanceDate, revocationStatus⟩
    rcases status <;> rfl

/-- Claim C6: the technical-analysis score blends 0.6 of the inverted
media-manipulation probability with 0.4 of the inverted text
misinformation probability when both are present, passes the single
inverted probability through when only one is present; the Technical
Analysis factor is emitted exactly when at least one analysis is present,
while the standalone technicalAnalysisScore sub-aggregate defaults to 50
when neither is. -/
theorem technicalAnalysis_blending (w : TrustEngine.Weights) (now : ℝ)
    (credentialResult : CredentialVerificationResult)
    (mediaAnalysis : Option MediaAnalysisResult)
    (textAnalysis : Option TextAnalysisResult)
    (crossValidation : Option CrossValidationResult)
    (communityRating : Option ℝ) (contentUrl : String)
    (m : MediaAnalysisResult) (t : TextAnalysisResult) :
    (TrustEngine.calculateTechnicalAnalysisScore (some m) (some t)
        = 0.6 * (100 - m.manipulationProbability * 100)
          + 0.4 * (100 - t.misinformationProbability * 100)) ∧
    (TrustEngine.calculateTechnicalAnalysisScore (some m) none
        = 100 - m.manipulationProbability * 100) ∧
    (TrustEngine.calculateTechnicalAnalysisScore none (some t)
        = 100 - t.misinformationProbability * 100) ∧
    (TrustEngine.calculateTechnicalAnalysisScore none none = 50) ∧
    ((TrustEngine.calculateScore w now credentialResult mediaAnalysis textAnalysis
        crossValidation communityRating contentUrl).factors.countP
          (fun f => f.name == "Technical Analysis")
        = if mediaAnalysis.isSome || textAnalysis.isSome then 1 else 0) ∧
    ((TrustEngine.calculateScore w now credentialResult mediaAnalysis textAnalysis
        crossValidation communityRating contentUrl).technicalAnalysisScore
        = TrustEngine.calculateTechnicalAnalysisScore mediaAnalysis textAnalysis) := by
  refine ⟨?_, ?_, ?_, ?_, ?_, rfl⟩
  · simp [TrustEngine.calculateTechnicalAnalysisScore]
    ring
  · simp [TrustEngine.calculateTechnicalAnalysisScore]
  · simp [TrustEngine.calculateTechnicalAnalysisScore]
  · simp [TrustEngine.calculateTechnicalAnalysisScore]
  · rcases mediaAnalysis with _ | mm <;> rcases textAnalysis with _ | tt <;>
      rcases crossValidation with _ | cvv <;> rcases communityRating with _ | crr <;>
      simp [TrustEngine.calculateScore, TrustEngine.calculateSourceVerificationFactor,
        TrustEngine.calculateTechnicalAnalysisFactor,
        TrustEngine.calculateTemporalFreshnessFactor,
        TrustEngine.calculateCrossValidationFactor,
        TrustEngine.calculateCommunityRatingFactor, List.countP_cons]

/-- Claim C7: every compute call emits a Temporal Freshness factor; its
score is 100 times exp of minus the credential age in days over 30 when
the issuance date is present, and 0 when it is absent. -/
theorem temporalFreshness_always_emitted (w : TrustEngine.Weights) (now : ℝ)
    (credentialResult : CredentialVerificationResult)
    (mediaAnalysis : Option MediaAnalysisResult)
    (textAnalysis : Option TextAnalysisResult)
    (crossValidation : Option CrossValidationResult)
    (communityRating : Option ℝ) (contentUrl : String) :
    ((TrustEngine.calculateScore w now credentialResult mediaAnalysis textAnalysis
        crossValidation communityRating contentUrl).factors.countP
          (fun f => f.name == "Temporal Freshness") = 1) ∧
    ((TrustEngine.calculateScore w now credentialResult mediaAnalysis textAnalysis
        crossValidation communityRating contentUrl).factors.find?
          (fun f => f.name == "Temporal Freshness")
        = some (TrustEngine.calculateTemporalFreshnessFactor w now
            credentialResult.issuanceDate)) ∧
    ((TrustEngine.calculateTemporalFreshnessFactor w now
          credentialResult.issuanceDate).score
        = match credentialResult.issuanceDate with
          | some d => 100 * Real.exp (-((now - d) / (1000 * 86400) / 30))
          | none => 0) := by
  refine ⟨?_, ?_, ?_⟩
  · rcases mediaAnalysis with _ | mm <;> rcases textAnalysis with _ | tt <;>
      rcases crossValidation with _ | cvv <;> rcases communityRating with _ | crr <;>
      simp [TrustEngine.calculateScore, TrustEngine.calculateSourceVerificationFactor,
        TrustEngine.calculateTechnicalAnalysisFactor,
        TrustEngine.calculateTemporalFreshnessFactor,
        TrustEngine.calculateCrossValidationFactor,
        TrustEngine.calculateCommunityRatingFactor, List.countP_cons]
  · rcases mediaAnalysis with _ | mm <;> rcases textAnalysis with _ | tt <;>
      rcases crossValidation with _ | cvv <;> rcases communityRating with _ | crr <;>
      simp [TrustEngine.calculateScore, TrustEngine.calculateSourceVerificationFactor,
        TrustEngine.calculateTechnicalAnalysisFactor,
        TrustEngine.calculateTemporalFreshnessFactor,
        TrustEngine.calculateCrossValidationFactor,
        TrustEngine.calculateCommunityRatingFactor, List.find?]
  · rcases hd : credentialResult.issuanceDate with _ | d
    · simp [TrustEngine.calculateTemporalFreshnessFactor, calculateTemporalScore]
    · simp only [TrustEngine.calculateTemporalFreshnessFactor, calculateTemporalScore]
      ring

/-- Claim C8: a Cross Validation factor is produced exactly when a
crossValidation input is present; its score is the corroboration ratio
scaled to 100 when sourcesChecked is positive and 0 when sourcesChecked
is zero, so the division is guarded. -/
theorem crossValidation_guarded (w : TrustEngine.Weights) (now : ℝ)
    (credentialResult : CredentialVerificationResult)
    (mediaAnalysis : Option MediaAnalysisResult)
    (textAnalysis : Option TextAnalysisResult)
    (communityRating : Option ℝ) (contentUrl : String)
    (cv : CrossValidationResult) :
    ((TrustEngine.calculateScore w now credentialResult mediaAnalysis textAnalysis
        (some cv) communityRating contentUrl).factors.countP
          (fun f => f.name == "Cross Validation") = 1) ∧
    ((TrustEngine.calculateScore w now credentialResult mediaAnalysis textAnalysis
        none communityRating contentUrl).factors.countP
          (fun f => f.name == "Cross Validation") = 0) ∧
    ((TrustEngine.calculateScore w now credentialResult mediaAnalysis textAnalysis
        (some cv) communityRating contentUrl).factors.find?
          (fun f => f.name == "Cross Validation")
        = some (TrustEngine.calculateCrossValidationFactor w cv)) ∧
    (cv.sourcesChecked > 0 →
      (TrustEngine.calculateCrossValidationFactor w cv).score
        = cv.sourcesCorroborating / cv.sourcesChecked * 100) ∧
    ((TrustEngine.calculateCrossValidationFactor w
        { cv with sourcesChecked := 0 }).score = 0) := by
  refine ⟨?_, ?_, ?_, ?_, ?_⟩
  · rcases mediaAnalysis with _ | mm <;> rcases textAnalysis with _ | tt <;>
      rcases communityRating with _ | crr <;>
      simp [TrustEngine.calculateScore, TrustEngine.calculateSourceVerificationFactor,
        TrustEngine.calculateTechnicalAnalysisFactor,
        TrustEngine.calculateTemporalFreshnessFactor,
        TrustEngine.calculateCrossValidationFactor,
        TrustEngine.calculateCommunityRatingFactor, List.countP_cons]
  · rcases mediaAnalysis with _ | mm <;> rcases textAnalysis with _ | tt <;>
      rcases communityRating with _ | crr <;>
      simp [TrustEngine.calculateScore, TrustEngine.calculateSourceVerificationFactor,
        TrustEngine.calculateTechnicalAnalysisFactor,
        TrustEngine.calculateTemporalFreshnessFactor,
        TrustEngine.calculateCrossValidationFactor,
        TrustEngine.calculateCommunityRatingFactor, List.countP_cons]
  · rcases mediaAnalysis with _ | mm <;> rcases textAnalysis with _ | tt <;>
      rcases communityRating with _ | crr <;>
      simp [TrustEngine.calculateScore, TrustEngine.calculateSourceVerificationFactor,
        TrustEngine.calculateTechnicalAnalysisFactor,
        TrustEngine.calculateTemporalFreshnessFactor,
        TrustEngine.calculateCrossValidationFactor,
        TrustEngine.calculateCommunityRatingFactor, List.find?]
  · intro hpos
    simp [TrustEngine.calculateCrossValidationFactor, hpos]
  · simp [TrustEngine.calculateCrossValidationFactor]

/-- Claim C8, witness: with two sources checked and one corroborating the
guard is taken and the score is the ratio scaled to 100. -/
theorem crossValidation_guarded_witness :
    (({ sourcesChecked := 2, sourcesCorroborating := 1 } :
        CrossValidationResult).sourcesChecked > 0) ∧
    ((TrustEngine.calculateCrossValidationFactor TrustEngine.defaultWeights
        { sourcesChecked := 2, sourcesCorroborating := 1 }).score
      = ({ sourcesChecked := 2, sourcesCorroborating := 1 } :
          CrossValidationResult).sourcesCorroborating
        / ({ sourcesChecked := 2, sourcesCorroborating := 1 } :
            CrossValidationResult).sourcesChecked * 100) :=
  ⟨by norm_num,
    (crossValidation_guarded TrustEngine.defaultWeights 0 exCredential none none none ""
      { sourcesChecked := 2, sourcesCorroborating := 1 }).2.2.2.1 (by norm_num)⟩

/-- Claim C9: the sourceVerified flag of every compute result is true
exactly when the credential status is valid; every other status yields
false. -/
theorem sourceVerified_iff_valid (w : TrustEngine.Weights) (now : ℝ)
    (credentialResult : CredentialVerificationResult)
    (mediaAnalysis : Option MediaAnalysisResult)
    (textAnalysis : Option TextAnalysisResult)
    (crossValidation : Option CrossValidationResult)
    (communityRating : Option ℝ) (contentUrl : String) :
    ((TrustEngine.calculateScore w now credentialResult mediaAnalysis textAnalysis
        crossValidation communityRating contentUrl).sourceVerified
      = (credentialResult.status == CredStatus.valid)) ∧
    ((TrustEngine.calculateScore w now credentialResult mediaAnalysis textAnalysis
        crossValidation communityRating contentUrl).sourceVerified = true ↔
      credentialResult.status = CredStatus.valid) := by
  refine ⟨rfl, ?_⟩
  show (credentialResult.status == CredStatus.valid) = true ↔ _
  simp [beq_iff_eq]

/-- Claim C10: the constructor takes the default weights only when no
argument is supplied and otherwise adopts the supplied object wholesale
(absent keys stay absent), while updateWeights spread-merges key-wise so
that keys absent from the update keep their prior value. -/
theorem constructor_wholesale_updateWeights_keywise
    (supplied current upd : TrustEngine.WeightConfig) :
    (TrustEngine.initialWeights none = TrustEngine.defaultWeightConfig) ∧
    (TrustEngine.initialWeights (some supplied) = supplied) ∧
    ((TrustEngine.updateWeights current upd).sourceVerification
        = match upd.sourceVerification with
          | some v => some v
          | none => current.sourceVerification) ∧
    ((TrustEngine.updateWeights current upd).technicalAnalysis
        = match upd.technicalAnalysis with
          | some v => some v
          | none => current.technicalAnalysis) ∧
    ((TrustEngine.updateWeights current upd).communityRating
        = match upd.communityRating with
          | some v => some v
          | none => current.communityRating) ∧
    ((TrustEngine.updateWeights current upd).temporalFreshness
        = match upd.temporalFreshness with
          | some v => some v
          | none => current.temporalFreshness) ∧
    ((TrustEngine.updateWeights current upd).crossValidation
        = match upd.crossValidation with
          | some v => some v
          | none => current.crossValidation) := by
  rcases upd with ⟨usv, uta, ucr, utf, ucv⟩
  refine ⟨rfl, rfl, ?_, ?_, ?_, ?_, ?_⟩
  · cases usv <;> rfl
  · cases uta <;> rfl
  · cases ucr <;> rfl
  · cases utf <;> rfl
  · cases ucv <;> rfl

end

end TruthVerify
